import Mathlib

/-!
Verification development for the EcoCode sandboxed execution orchestrator
(`runner/backend_runner.py`).  Python strings are embedded as `List Char`,
Python floats as `ℚ` (exact rational arithmetic; the special values are
modelled explicitly where the code tests for them), and the external Docker
engine as an explicit environment record describing the outcome of each
engine call, so that the orchestrator's control flow becomes a total
function of that environment.
-/

namespace EcoCode

/-! ### String primitives (Python `str` operations used by the runner) -/

/-- Python ASCII whitespace recognised by `str.strip()`. -/
def isPySpace (c : Char) : Bool := c.toNat = 32 || (9 ≤ c.toNat && c.toNat ≤ 13)

/-- Model of Python `str.strip()`: drop whitespace from both ends. -/
def strip (l : List Char) : List Char :=
  ((l.dropWhile isPySpace).reverse.dropWhile isPySpace).reverse

/-- Model of Python `str.lower()` (ASCII). -/
def lower (l : List Char) : List Char := l.map Char.toLower

/-- Model of Python's substring test `pat in s`. -/
def containsSub (pat : List Char) : List Char → Bool
  | [] => pat.isEmpty
  | c :: rest => pat.isPrefixOf (c :: rest) || containsSub pat rest

/-- Auxiliary scanner for `removeAll`: a positive first argument means that
many characters of an already-matched occurrence remain to be skipped. -/
def removeAllAux (pat : List Char) : ℕ → List Char → List Char
  | _, [] => []
  | Nat.succ k, _ :: rest => removeAllAux pat k rest
  | 0, c :: rest =>
      if pat ≠ [] ∧ pat.isPrefixOf (c :: rest) then
        removeAllAux pat (pat.length - 1) rest
      else c :: removeAllAux pat 0 rest

/-- Model of Python `s.replace(pat, '')`: remove every (left-to-right,
non-overlapping) occurrence of `pat`. -/
def removeAll (pat s : List Char) : List Char := removeAllAux pat 0 s

/-- Digit test on the character's code point. -/
def isDigitCh (c : Char) : Bool := 48 ≤ c.toNat && c.toNat ≤ 57

/-- Numeric value of a digit string read left to right. -/
def digitsVal (l : List Char) : ℚ := l.foldl (fun a c => a * 10 + ((c.toNat : ℚ) - 48)) 0

/-- Parse an unsigned decimal literal: digits with an optional decimal point,
at least one digit overall. -/
def parseUnsigned (l : List Char) : Option ℚ :=
  let ip := l.takeWhile isDigitCh
  let rest := l.dropWhile isDigitCh
  match rest with
  | [] => if ip = [] then none else some (digitsVal ip)
  | '.' :: frac =>
      if frac.all isDigitCh ∧ (ip ≠ [] ∨ frac ≠ []) then
        some (digitsVal ip + digitsVal frac / 10 ^ frac.length)
      else none
  | _ => none

/-- Model of Python `float(s)` restricted to optionally signed decimal
literals (the only numeric inputs this component ever feeds to it);
`none` models the `ValueError` raised on anything else. -/
def pyFloat (l : List Char) : Option ℚ :=
  let s := strip l
  match s with
  | '+' :: r => parseUnsigned r
  | '-' :: r => (parseUnsigned r).map (fun q => -q)
  | _ => parseUnsigned s

/-! ### `parse_mem_string` (backend_runner.py lines 30-47) -/

/-- The branch cascade of `parse_mem_string`, applied to the already
lowercased and stripped string (the code reassigns
`mem_str = mem_str.lower().strip()` first). -/
def parseMemCore (s : List Char) : ℚ :=
  if containsSub ('k' :: 'i' :: 'b' :: []) s then
    match pyFloat (removeAll ('k' :: 'i' :: 'b' :: []) s) with
    | some q => q / 1024
    | none => 0
  else if containsSub ('m' :: 'i' :: 'b' :: []) s then
    match pyFloat (removeAll ('m' :: 'i' :: 'b' :: []) s) with
    | some q => q
    | none => 0
  else if containsSub ('g' :: 'i' :: 'b' :: []) s then
    match pyFloat (removeAll ('g' :: 'i' :: 'b' :: []) s) with
    | some q => q * 1024
    | none => 0
  else if containsSub ('b' :: []) s then
    match pyFloat (removeAll ('b' :: []) s) with
    | some q => q / (1024 * 1024)
    | none => 0
  else if s = '0' :: 'b' :: [] then 0
  else
    match pyFloat s with
    | some q => q / (1024 * 1024)
    | none => 0

/-- Embedding of `parse_mem_string` (lines 30-47): normalise a docker-stats
memory string to MiB; any `ValueError` from `float` yields `0.0`. -/
def parse_mem_string (mem_str : List Char) : ℚ :=
  parseMemCore (strip (lower mem_str))

/-! ### Constants (backend_runner.py lines 13-21, 199-200, 268) -/

def IMAGE_NAME : String := "python-sandbox:latest"

def CONTAINER_NAME_PREFIX : String := "test_run_container_"

def CPU_QUOTA : ℚ := 50000

def CPU_PERIOD : ℚ := 100000

/-- `ALLOCATED_CPU_CORES = float(CPU_QUOTA) / float(CPU_PERIOD) if CPU_PERIOD > 0 else 0`. -/
def ALLOCATED_CPU_CORES : ℚ := if CPU_PERIOD > 0 then CPU_QUOTA / CPU_PERIOD else 0

/-- The container name the code actually uses for every run (line 200). -/
def container_name : String := "test"

/-- `container_wait_timeout = 300` (line 268): the timeout passed to `container.wait`. -/
def container_wait_timeout : ℕ := 300

/-! ### Rounding (Python built-in `round(x, n)`, round-half-to-even) -/

/-- Round-half-to-even to an integer, the tie rule of Python's `round`. -/
def rndHalfEven (x : ℚ) : ℤ :=
  if x - ⌊x⌋ < 1/2 then ⌊x⌋
  else if 1/2 < x - ⌊x⌋ then ⌊x⌋ + 1
  else if Even ⌊x⌋ then ⌊x⌋ else ⌊x⌋ + 1

/-- Python `round(x, 2)` on the exact rational model. -/
def round2 (x : ℚ) : ℚ := (rndHalfEven (x * 100) : ℚ) / 100

/-- Python `round(x, 3)` on the exact rational model. -/
def round3 (x : ℚ) : ℚ := (rndHalfEven (x * 1000) : ℚ) / 1000

/-! ### Power model (backend_runner.py lines 344-351) -/

/-- `avg_cpu_power_watt = (avg_cpu_perc_calc / 100.0) * allocated_cores * cpu_watts_per_core`. -/
def avg_cpu_power_watt (avg_cpu_perc allocated_cores cpu_per_core_watt : ℚ) : ℚ :=
  avg_cpu_perc / 100 * allocated_cores * cpu_per_core_watt

/-- `avg_ram_power_watt = (avg_mem_mib / 1024.0) * ram_per_gb_watt`. -/
def avg_ram_power_watt (avg_mem_mib ram_per_gb_watt : ℚ) : ℚ :=
  avg_mem_mib / 1024 * ram_per_gb_watt

/-- `total_avg_power_watt = avg_cpu_power_watt + avg_ram_power_watt + baseline_watt`. -/
def total_avg_power_watt (cpu_w ram_w baseline_watt : ℚ) : ℚ :=
  cpu_w + ram_w + baseline_watt

/-- `energy_kwh = (total_avg_power_watt / 1000.0) * (run_duration / 3600.0)`. -/
def energy_kwh (power_watt run_duration : ℚ) : ℚ :=
  power_watt / 1000 * (run_duration / 3600)

/-- The full pipeline from averages to energy, with the coefficients of the
power model as parameters (the code instantiates `allocated_cores` with
`ALLOCATED_CPU_CORES`). -/
def energyOf (allocated_cores cpu_per_core_watt ram_per_gb_watt baseline_watt
    avg_cpu_perc avg_mem_mib run_duration : ℚ) : ℚ :=
  energy_kwh
    (total_avg_power_watt (avg_cpu_power_watt avg_cpu_perc allocated_cores cpu_per_core_watt)
      (avg_ram_power_watt avg_mem_mib ram_per_gb_watt) baseline_watt)
    run_duration

/-! ### Stats aggregation (backend_runner.py lines 316-376)

A collected stats sample stores a CPU-percent string and an already parsed
memory value.  The aggregation loop only ever observes (a) whether
`float(cpu_perc_str.replace('%',''))` raised `ValueError`, (b) whether either
value is a NaN, and (c) the finite numeric values, so a sample is embedded as
those observations: `cpu_perc` is `none` when `float` raised, `some .nan`
when it produced a NaN, and the stored memory float is `nan` or a rational. -/

inductive PyFloat where
  | nan
  | val (q : ℚ)
deriving DecidableEq

structure StatSample where
  cpu_perc : Option PyFloat
  mem_usage_mib : PyFloat
deriving DecidableEq

structure StatsAcc where
  total_cpu_perc_val : ℚ
  total_mem_mib : ℚ
  peak_mem_mib_calc : ℚ
  count : ℕ
deriving DecidableEq

/-- One iteration of the `for stat in local_stats_data` loop: a `ValueError`
while parsing the CPU string skips the entry entirely (`continue`); a NaN
value is skipped for its own accumulator but the entry is still counted. -/
def statsStep (acc : StatsAcc) (st : StatSample) : StatsAcc :=
  match st.cpu_perc with
  | none => acc
  | some c =>
    let acc1 :=
      match c with
      | .val q => { acc with total_cpu_perc_val := acc.total_cpu_perc_val + q }
      | .nan => acc
    let acc2 :=
      match st.mem_usage_mib with
      | .val m =>
        { acc1 with
          total_mem_mib := acc1.total_mem_mib + m
          peak_mem_mib_calc :=
            if m > acc1.peak_mem_mib_calc then m else acc1.peak_mem_mib_calc }
      | .nan => acc1
    { acc2 with count := acc2.count + 1 }

def statsFold (l : List StatSample) : StatsAcc :=
  l.foldl statsStep ⟨0, 0, 0, 0⟩

/-! ### The results dictionary (backend_runner.py lines 137-151) -/

structure PowerAssumptions where
  cpu_per_core_watt : ℚ
  ram_per_gb_watt : ℚ
  baseline_container_watt : ℚ
deriving DecidableEq

structure RunResults where
  success : Bool
  error : Option String
  exit_code : ℤ
  logs : Option String
  runtime_seconds : ℚ
  samples_collected : ℕ
  avg_cpu_percent : ℚ
  avg_mem_mib : ℚ
  peak_mem_mib : ℚ
  avg_power_watt : ℚ
  energy_kwh : ℚ
  power_assumptions : Option PowerAssumptions
deriving DecidableEq

/-- The initial `results` dictionary. -/
def initResults : RunResults :=
  { success := false
    error := none
    exit_code := -1
    logs := none
    runtime_seconds := 0
    samples_collected := 0
    avg_cpu_percent := 0
    avg_mem_mib := 0
    peak_mem_mib := 0
    avg_power_watt := 0
    energy_kwh := 0
    power_assumptions := none }

/-- Embedding of the stats-processing and energy-estimation section
(lines 316-376), applied to the current `results`, the collected sample
buffer, the measured run duration and the configured coefficients. -/
def processStats (r : RunResults) (local_stats_data : List StatSample)
    (run_duration : ℚ) (pa : PowerAssumptions) : RunResults :=
  let r := { r with samples_collected := local_stats_data.length }
  if local_stats_data ≠ [] ∧ run_duration > 0 then
    let acc := statsFold local_stats_data
    if acc.count > 0 then
      let avg_cpu_perc_calc := acc.total_cpu_perc_val / acc.count
      let avg_mem_mib_calc := acc.total_mem_mib / acc.count
      let avg_mem_gb := avg_mem_mib_calc / 1024
      let cpu_w := avg_cpu_perc_calc / 100 * ALLOCATED_CPU_CORES * pa.cpu_per_core_watt
      let ram_w := avg_mem_gb * pa.ram_per_gb_watt
      let total_w := cpu_w + ram_w + pa.baseline_container_watt
      let energy := total_w / 1000 * (run_duration / 3600)
      { r with
        avg_cpu_percent := round2 avg_cpu_perc_calc
        avg_mem_mib := round2 avg_mem_mib_calc
        peak_mem_mib := round2 acc.peak_mem_mib_calc
        avg_power_watt := round3 total_w
        energy_kwh := energy
        success := true }
    else
      { r with error := some "Stats collected but count is zero or parsing failed." }
  else if local_stats_data = [] then
    { r with error := some "No statistics were collected." }
  else
    { r with error := some "Run duration was zero or negative, cannot calculate energy." }

/-! ### The `run()` control flow (backend_runner.py lines 116-416)

The Docker engine and filesystem are external; an invocation is embedded as
a function of an environment record that fixes the outcome of every external
call the code makes.  Exceptions raised by those calls are explicit
environment outcomes, so `run` itself is a total function: the embedded
counterpart of "never propagates an exception to the caller". -/

/-- Outcome of one engine call inside the cleanup block: success, a
`docker.errors.NotFound`, or any other exception (with its message). -/
inductive COut where
  | ok
  | notFound
  | failed (msg : String)
deriving DecidableEq

/-- The two exception classes caught around `container.wait`
(`docker.errors.APIError`, `TimeoutError`); one handler serves both. -/
inductive WaitErr where
  | timeout
  | apiError
deriving DecidableEq

/-- Outcome of the log-retrieval block (reload + `container.logs()`). -/
inductive LogOut where
  | ok (text : String)
  | notFound
  | err (msg : String)
deriving DecidableEq

structure Config where
  user_code_dir_relative : String
  code_entrypoint : String
  power_assumptions : PowerAssumptions
deriving DecidableEq

/-- One invocation's view of the outside world: the outcome of every
external call `run()` makes, in program order. -/
structure RunEnv where
  /-- `load_config`: either the parsed config or the error string. -/
  load_config : Except String Config
  /-- whether the `float(...)` conversions of the config values succeed. -/
  conv_ok : Bool
  /-- `USER_CODE_DIR.is_dir()`. -/
  dir_exists : Bool
  /-- `docker.from_env()` + `ping`: connection outcome. -/
  connect : Except String Unit
  /-- `client.images.get(IMAGE_NAME)` finds the image. -/
  image_present : Bool
  /-- image build outcome, consulted only when the image is absent. -/
  build : Except String Unit
  /-- whether `client.containers.run(...)` returns (False: it raises, caught
  by the outer `except`). -/
  create_ok : Bool
  /-- an unexpected exception raised inside the `try` body after the
  container started (any phase), with its message. -/
  abort_after_start : Option String
  /-- `container.wait(timeout=...)`: the `StatusCode` entry of its result
  (`none` models a result without that key, read back as `-1`), or one of
  the two caught exceptions. -/
  wait : Except WaitErr (Option ℤ)
  /-- whether the `container.reload()` inside the wait-failure handler
  succeeds. -/
  wait_reload_ok : Bool
  /-- `container.status` observed by that reload. -/
  status_after_wait : String
  /-- whether the best-effort `container.stop` in the wait-failure handler
  succeeds (its failure is swallowed either way). -/
  stop_after_wait_ok : Bool
  /-- log retrieval outcome. -/
  fetch_logs : LogOut
  /-- the sample buffer accumulated by the monitor thread. -/
  samples : List StatSample
  /-- `end_run_time - start_run_time`. -/
  run_duration : ℚ
  /-- cleanup block: first `container.reload()`. -/
  cleanup_reload : COut
  /-- `container.status` observed inside the cleanup block. -/
  cleanup_status : String
  /-- cleanup `container.stop(timeout=10)`. -/
  cleanup_stop : COut
  /-- cleanup `container.remove(v=True)`. -/
  cleanup_remove : COut

/-- Observable facts about one invocation beyond its results dictionary:
which container name it used, which timeout it passed to `wait`, whether the
wait-failure handler attempted a stop, whether the guaranteed cleanup block
ran, and whether a container bearing this run's name is still listed by the
engine afterwards. -/
structure RunTrace where
  container_name_used : Option String
  wait_timeout_used : Option ℕ
  stop_after_wait_attempted : Bool
  cleanup_ran : Bool
  container_listed : Bool
deriving DecidableEq

def initTrace : RunTrace :=
  { container_name_used := none
    wait_timeout_used := none
    stop_after_wait_attempted := false
    cleanup_ran := false
    container_listed := false }

/-- Record a cleanup error only if no earlier error occupies the slot. -/
def recordCleanupErr (r : RunResults) (msg : String) : RunResults :=
  if r.error = none then
    { r with error := some ("Error during container cleanup: " ++ msg) }
  else r

/-- The final `container.remove(v=True)` of the cleanup block. -/
def removePhase (env : RunEnv) (r : RunResults) (t : RunTrace) :
    RunResults × RunTrace :=
  match env.cleanup_remove with
  | .ok => (r, { t with container_listed := false })
  | .notFound => (r, { t with container_listed := false })
  | .failed m => (recordCleanupErr r m, { t with container_listed := true })

/-- The `finally` block (lines 393-416): reload, stop if still running,
remove; `NotFound` means the container is already gone; any other cleanup
exception leaves the container listed and is recorded into the result's
error slot only when that slot is empty. -/
def finallyCleanup (env : RunEnv) (created : Bool) (r : RunResults)
    (t : RunTrace) : RunResults × RunTrace :=
  let t := { t with cleanup_ran := true }
  if created then
    match env.cleanup_reload with
    | .notFound => (r, { t with container_listed := false })
    | .failed m => (recordCleanupErr r m, { t with container_listed := true })
    | .ok =>
      if env.cleanup_status = "running" then
        match env.cleanup_stop with
        | .notFound => (r, { t with container_listed := false })
        | .failed m => (recordCleanupErr r m, { t with container_listed := true })
        | .ok => removePhase env r t
      else removePhase env r t
  else (r, { t with container_listed := false })

/-- The wait phase (lines 269-282): exit code from a successful wait
(`result.get('StatusCode', -1)`), or the sentinel `-99` together with the
best-effort stop of a still-running container; returns the exit code and
whether that stop was attempted. -/
def waitPhase (env : RunEnv) : ℤ × Bool :=
  match env.wait with
  | .ok code => (code.getD (-1), false)
  | .error _ => (-99, env.wait_reload_ok && (env.status_after_wait = "running"))

/-- The value stored into `results['logs']` (lines 299-310). -/
def logsText (env : RunEnv) : String :=
  match env.fetch_logs with
  | .ok text => text
  | .notFound => "[Error: Container not found during log retrieval]"
  | .err m => "[Error retrieving logs: " ++ m ++ "]"

/-- The body of the `try` block from the Docker connection onward
(lines 205-391), always funnelled through the `finally` cleanup. -/
def runTry (env : RunEnv) (config : Config) (r : RunResults) : RunResults × RunTrace :=
  match env.connect with
  | .error e =>
      finallyCleanup env false
        { r with error := some ("Docker Connection Error: " ++ e ++ ". Is Docker running?") }
        initTrace
  | .ok _ =>
    match (if env.image_present then Except.ok () else env.build) with
    | .error e =>
        finallyCleanup env false
          { r with error := some ("Docker Build Error: " ++ e) } initTrace
    | .ok _ =>
      if env.create_ok = false then
        finallyCleanup env false
          { r with error := some "An unexpected error occurred during run: container start failed." }
          initTrace
      else
        let t := { initTrace with container_name_used := some container_name }
        match env.abort_after_start with
        | some m =>
            finallyCleanup env true
              { r with error := some ("An unexpected error occurred during run: " ++ m) } t
        | none =>
          let t := { t with wait_timeout_used := some container_wait_timeout }
          let wp := waitPhase env
          let t := { t with stop_after_wait_attempted := wp.2 }
          let r := { r with
            runtime_seconds := round2 env.run_duration
            exit_code := wp.1 }
          let r := { r with logs := some (logsText env) }
          let r := processStats r env.samples env.run_duration config.power_assumptions
          finallyCleanup env true r t

/-- Embedding of `run()` (lines 116-416): the early returns before the
`try` block, then the guarded body with its guaranteed cleanup. -/
def run (env : RunEnv) : RunResults × RunTrace :=
  let r := initResults
  match env.load_config with
  | .error e =>
      ({ r with error := some ("Configuration Error: " ++ e) }, initTrace)
  | .ok config =>
    let r := { r with power_assumptions := some config.power_assumptions }
    if env.conv_ok = false then
      ({ r with error := some "Config Data Error: Invalid or missing key/value." }, initTrace)
    else if env.dir_exists = false then
      ({ r with error := some "User code directory not found at resolved path." }, initTrace)
    else
      runTry env config r

/-- An invocation that fails before a container could be started:
configuration error, config-value conversion error, missing code directory,
connection error, or build error — the fatal outcomes of the error taxonomy.
An exception at container start or an unexpected exception immediately after
it likewise leaves every derived field at its default. -/
def fatalB (env : RunEnv) : Bool :=
  match env.load_config with
  | .error _ => true
  | .ok _ =>
    !env.conv_ok || !env.dir_exists ||
    (match env.connect with
     | .error _ => true
     | .ok _ =>
       (match (if env.image_present then Except.ok () else env.build) with
        | .error _ => true
        | .ok _ => !env.create_ok || !env.abort_after_start.isNone))

/-- An invocation that reaches the `container.wait` call: everything up to
and including container start succeeded and no unexpected exception fired
before the wait. -/
def reachesWait (env : RunEnv) : Bool :=
  match env.load_config with
  | .error _ => false
  | .ok _ =>
    env.conv_ok && env.dir_exists &&
    (match env.connect with
     | .error _ => false
     | .ok _ =>
       (match (if env.image_present then Except.ok () else env.build) with
        | .error _ => false
        | .ok _ => env.create_ok && env.abort_after_start.isNone))

/-- An invocation that reaches the `client.containers.run` call and starts a
container (whatever happens afterwards). -/
def reachesCreate (env : RunEnv) : Bool :=
  match env.load_config with
  | .error _ => false
  | .ok _ =>
    env.conv_ok && env.dir_exists &&
    (match env.connect with
     | .error _ => false
     | .ok _ =>
       (match (if env.image_present then Except.ok () else env.build) with
        | .error _ => false
        | .ok _ => env.create_ok))

/-! ### Concrete instances used to exercise the model -/

def pa0 : PowerAssumptions := ⟨2, 3, 5⟩

def cfg0 : Config := ⟨"../test/code", "main.py", pa0⟩

/-- One parsed, NaN-free sample: 10 % CPU, 5 MiB memory. -/
def okSample : StatSample := ⟨some (.val 10), .val 5⟩

/-- A sample whose CPU string raises `ValueError` when parsed. -/
def badSample : StatSample := ⟨none, .val 1⟩

/-- A healthy environment up to the wait, whose `container.wait` then times
out while the container keeps running; cleanup succeeds. -/
def envWaitFail : RunEnv :=
  { load_config := .ok cfg0
    conv_ok := true
    dir_exists := true
    connect := .ok ()
    image_present := true
    build := .ok ()
    create_ok := true
    abort_after_start := none
    wait := .error .timeout
    wait_reload_ok := true
    status_after_wait := "running"
    stop_after_wait_ok := true
    fetch_logs := .ok ""
    samples := [okSample]
    run_duration := 1
    cleanup_reload := .ok
    cleanup_status := "exited"
    cleanup_stop := .ok
    cleanup_remove := .ok }

/-- The same environment with a successful wait. -/
def envOk : RunEnv :=
  { envWaitFail with wait := .ok (some 0), status_after_wait := "exited" }

/-- An environment whose configuration file is missing. -/
def envConfigErr : RunEnv :=
  { envWaitFail with load_config := .error "Configuration file not found" }

/-! ## Theorems -/

/-! ### String lemmas -/

theorem toLower_eq_self_of_lt {c : Char} (h : c.toNat < 65) : c.toLower = c := by
  unfold Char.toLower
  rw [if_neg (by omega)]

/-- A digit or a decimal point is unchanged by `str.lower()`. -/
theorem numChar_toLower {c : Char} (h : isDigitCh c = true ∨ c = '.') : c.toLower = c := by
  rcases h with h | rfl
  · apply toLower_eq_self_of_lt
    simp only [isDigitCh, Bool.and_eq_true, decide_eq_true_eq] at h
    omega
  · decide

/-- A digit or a decimal point is not whitespace. -/
theorem numChar_not_space {c : Char} (h : isDigitCh c = true ∨ c = '.') :
    isPySpace c = false := by
  rcases h with h | rfl
  · simp only [isDigitCh, Bool.and_eq_true, decide_eq_true_eq] at h
    simp only [isPySpace, Bool.or_eq_false_iff, Bool.and_eq_false_iff]
    constructor
    · simp only [decide_eq_false_iff_not]
      omega
    · right
      simp only [decide_eq_false_iff_not]
      omega
  · decide

/-- A letter that is neither a digit nor a point does not occur in a numeric
string. -/
theorem numChar_not_mem {s : List Char}
    (hs : ∀ c ∈ s, isDigitCh c = true ∨ c = '.') {x : Char}
    (hx1 : isDigitCh x = false) (hx2 : x ≠ '.') : x ∉ s := by
  intro hm
  rcases hs x hm with h | h
  · rw [h] at hx1
    exact absurd hx1 (by simp)
  · exact hx2 h

theorem map_id_of_fixed {f : Char → Char} {s : List Char}
    (h : ∀ c ∈ s, f c = c) : s.map f = s := by
  induction s with
  | nil => rfl
  | cons c cs ih =>
      rw [List.map_cons, h c (List.mem_cons_self c cs),
        ih fun x hx => h x (List.mem_cons_of_mem _ hx)]

theorem dropWhile_eq_self_of {p : Char → Bool} {l : List Char}
    (h : ∀ c ∈ l, p c = false) : l.dropWhile p = l := by
  cases l with
  | nil => rfl
  | cons c cs =>
      exact List.dropWhile_cons_of_neg (by simp [h c (List.mem_cons_self c cs)])

theorem strip_eq_self_of {l : List Char} (h : ∀ c ∈ l, isPySpace c = false) :
    strip l = l := by
  unfold strip
  rw [dropWhile_eq_self_of h,
    dropWhile_eq_self_of fun c hc => h c (List.mem_reverse.mp hc),
    List.reverse_reverse]

theorem isPrefixOf_self (l : List Char) : l.isPrefixOf l = true := by
  simp [List.isPrefixOf_iff_prefix]

theorem mem_of_isPrefixOf_eq_true {l₁ l₂ : List Char}
    (h : l₁.isPrefixOf l₂ = true) {x : Char} (hx : x ∈ l₁) : x ∈ l₂ := by
  rw [List.isPrefixOf_iff_prefix] at h
  exact h.subset hx

theorem containsSub_append_self (pat : List Char) (hp : pat ≠ []) (s : List Char) :
    containsSub pat (s ++ pat) = true := by
  induction s with
  | nil =>
      rw [List.nil_append]
      cases pat with
      | nil => exact absurd rfl hp
      | cons p pt => simp [containsSub, isPrefixOf_self]
  | cons c cs ih => simp [containsSub, ih]

theorem containsSub_eq_false (x : Char) {pat l : List Char}
    (hxp : x ∈ pat) (hxl : x ∉ l) : containsSub pat l = false := by
  induction l with
  | nil =>
      cases pat with
      | nil => simp at hxp
      | cons p pt => rfl
  | cons c cs ih =>
      simp only [containsSub, Bool.or_eq_false_iff]
      refine ⟨?_, ih fun h => hxl (List.mem_cons_of_mem _ h)⟩
      cases hpre : List.isPrefixOf pat (c :: cs) with
      | false => rfl
      | true => exact absurd (mem_of_isPrefixOf_eq_true hpre hxp) hxl

theorem removeAllAux_len (pat : List Char) :
    ∀ l : List Char, removeAllAux pat l.length l = [] := by
  intro l
  induction l with
  | nil => rfl
  | cons c cs ih => simpa [removeAllAux] using ih

theorem removeAll_append_self {p : Char} {pt s : List Char} (hp : p ∉ s) :
    removeAll (p :: pt) (s ++ (p :: pt)) = s := by
  induction s with
  | nil =>
      show removeAllAux (p :: pt) 0 (p :: pt) = []
      rw [removeAllAux, if_pos ⟨List.cons_ne_nil p pt, isPrefixOf_self (p :: pt)⟩]
      simpa using removeAllAux_len (p :: pt) pt
  | cons c cs ih =>
      have hpc : p ≠ c := fun h => hp (h ▸ List.mem_cons_self c cs)
      show removeAllAux (p :: pt) 0 (c :: (cs ++ (p :: pt))) = c :: cs
      rw [removeAllAux, if_neg]
      · exact congrArg (c :: ·) (ih fun h => hp (List.mem_cons_of_mem _ h))
      · rintro ⟨-, h2⟩
        simp only [List.isPrefixOf, Bool.and_eq_true, beq_iff_eq] at h2
        exact hpc h2.1

/-! ### `parse_mem_string` branch lemmas -/

theorem parseMemCore_kib {s : List Char}
    (hs : ∀ c ∈ s, isDigitCh c = true ∨ c = '.') {q : ℚ}
    (hq : pyFloat s = some q) :
    parseMemCore (s ++ ('k' :: 'i' :: 'b' :: [])) = q / 1024 := by
  have hk := containsSub_append_self ('k' :: 'i' :: 'b' :: []) (by simp) s
  have hrm : removeAll ('k' :: 'i' :: 'b' :: []) (s ++ ('k' :: 'i' :: 'b' :: [])) = s :=
    removeAll_append_self (numChar_not_mem hs (by decide) (by decide))
  unfold parseMemCore
  rw [if_pos hk, hrm, hq]

theorem parseMemCore_mib {s : List Char}
    (hs : ∀ c ∈ s, isDigitCh c = true ∨ c = '.') {q : ℚ}
    (hq : pyFloat s = some q) :
    parseMemCore (s ++ ('m' :: 'i' :: 'b' :: [])) = q := by
  have hnk : containsSub ('k' :: 'i' :: 'b' :: []) (s ++ ('m' :: 'i' :: 'b' :: [])) = false := by
    refine containsSub_eq_false 'k' (by decide) ?_
    simp only [List.mem_append]
    rintro (h | h)
    · exact numChar_not_mem hs (by decide) (by decide) h
    · simp at h
  have hm := containsSub_append_self ('m' :: 'i' :: 'b' :: []) (by simp) s
  have hrm : removeAll ('m' :: 'i' :: 'b' :: []) (s ++ ('m' :: 'i' :: 'b' :: [])) = s :=
    removeAll_append_self (numChar_not_mem hs (by decide) (by decide))
  unfold parseMemCore
  rw [if_neg (by rw [hnk]; exact fun h => nomatch h), if_pos hm, hrm, hq]

theorem parseMemCore_gib {s : List Char}
    (hs : ∀ c ∈ s, isDigitCh c = true ∨ c = '.') {q : ℚ}
    (hq : pyFloat s = some q) :
    parseMemCore (s ++ ('g' :: 'i' :: 'b' :: [])) = q * 1024 := by
  have hnk : containsSub ('k' :: 'i' :: 'b' :: []) (s ++ ('g' :: 'i' :: 'b' :: [])) = false := by
    refine containsSub_eq_false 'k' (by decide) ?_
    simp only [List.mem_append]
    rintro (h | h)
    · exact numChar_not_mem hs (by decide) (by decide) h
    · simp at h
  have hnm : containsSub ('m' :: 'i' :: 'b' :: []) (s ++ ('g' :: 'i' :: 'b' :: [])) = false := by
    refine containsSub_eq_false 'm' (by decide) ?_
    simp only [List.mem_append]
    rintro (h | h)
    · exact numChar_not_mem hs (by decide) (by decide) h
    · simp at h
  have hg := containsSub_append_self ('g' :: 'i' :: 'b' :: []) (by simp) s
  have hrm : removeAll ('g' :: 'i' :: 'b' :: []) (s ++ ('g' :: 'i' :: 'b' :: [])) = s :=
    removeAll_append_self (numChar_not_mem hs (by decide) (by decide))
  unfold parseMemCore
  rw [if_neg (by rw [hnk]; exact fun h => nomatch h),
    if_neg (by rw [hnm]; exact fun h => nomatch h), if_pos hg, hrm, hq]

theorem parseMemCore_b {s : List Char}
    (hs : ∀ c ∈ s, isDigitCh c = true ∨ c = '.') {q : ℚ}
    (hq : pyFloat s = some q) :
    parseMemCore (s ++ ('b' :: [])) = q / (1024 * 1024) := by
  have hno : ∀ pat : List Char, 'i' ∈ pat →
      containsSub pat (s ++ ('b' :: [])) = false := by
    intro pat hip
    refine containsSub_eq_false 'i' hip ?_
    simp only [List.mem_append]
    rintro (h | h)
    · exact numChar_not_mem hs (by decide) (by decide) h
    · simp at h
  have hb := containsSub_append_self ('b' :: []) (by simp) s
  have hrm : removeAll ('b' :: []) (s ++ ('b' :: [])) = s :=
    removeAll_append_self (numChar_not_mem hs (by decide) (by decide))
  unfold parseMemCore
  rw [if_neg (by rw [hno _ (by decide)]; exact fun h => nomatch h),
    if_neg (by rw [hno _ (by decide)]; exact fun h => nomatch h),
    if_neg (by rw [hno _ (by decide)]; exact fun h => nomatch h),
    if_pos hb, hrm, hq]

/-- Lowercasing and stripping a numeric string followed by a space-free unit
reduces `parse_mem_string` to the branch cascade on the normalised string. -/
theorem parse_mem_string_append {s u pat : List Char}
    (hs : ∀ c ∈ s, isDigitCh c = true ∨ c = '.')
    (hlu : lower u = pat) (hps : ∀ c ∈ pat, isPySpace c = false) :
    parse_mem_string (s ++ u) = parseMemCore (s ++ pat) := by
  unfold parse_mem_string
  unfold lower at hlu ⊢
  rw [List.map_append, map_id_of_fixed fun c hc => numChar_toLower (hs c hc), hlu,
    strip_eq_self_of]
  intro c hc
  rcases List.mem_append.mp hc with h | h
  · exact numChar_not_space (hs c h)
  · exact hps c h

/-- Claim C4: for every input string of the form `<number><unit>` with unit
one of B, KiB, MiB, GiB in any letter case, `parse_mem_string` returns the
value normalised to MiB (B divided by 1024², KiB divided by 1024, MiB
unchanged, GiB multiplied by 1024); in particular `"10.5MiB" → 10.5`,
`"1GiB" → 1024.0`, `"512KiB" → 0.5`, `"0B" → 0.0`; and for the unparsable
string `"garbage"` it returns `0.0` (the embedding is a total function, so
it never raises). -/
theorem claim_C4_parse_mem_string :
    (∀ (s u : List Char) (q : ℚ),
      (∀ c ∈ s, isDigitCh c = true ∨ c = '.') →
      pyFloat s = some q →
      (lower u = 'b' :: [] → parse_mem_string (s ++ u) = q / (1024 * 1024)) ∧
      (lower u = 'k' :: 'i' :: 'b' :: [] → parse_mem_string (s ++ u) = q / 1024) ∧
      (lower u = 'm' :: 'i' :: 'b' :: [] → parse_mem_string (s ++ u) = q) ∧
      (lower u = 'g' :: 'i' :: 'b' :: [] → parse_mem_string (s ++ u) = q * 1024)) ∧
    parse_mem_string "10.5MiB".toList = 10.5 ∧
    parse_mem_string "1GiB".toList = 1024 ∧
    parse_mem_string "512KiB".toList = 1 / 2 ∧
    parse_mem_string "0B".toList = 0 ∧
    parse_mem_string "garbage".toList = 0 := by
  refine ⟨?_, ?_, ?_, ?_, ?_, ?_⟩
  · intro s u q hs hq
    refine ⟨fun hlu => ?_, fun hlu => ?_, fun hlu => ?_, fun hlu => ?_⟩
    · rw [parse_mem_string_append hs hlu (by decide)]
      exact parseMemCore_b hs hq
    · rw [parse_mem_string_append hs hlu (by decide)]
      exact parseMemCore_kib hs hq
    · rw [parse_mem_string_append hs hlu (by decide)]
      exact parseMemCore_mib hs hq
    · rw [parse_mem_string_append hs hlu (by decide)]
      exact parseMemCore_gib hs hq
  · simp +decide [parse_mem_string, parseMemCore, pyFloat, parseUnsigned, strip,
      lower, containsSub, removeAll, removeAllAux, digitsVal, isDigitCh, isPySpace]
    norm_num
  · simp +decide [parse_mem_string, parseMemCore, pyFloat, parseUnsigned, strip,
      lower, containsSub, removeAll, removeAllAux, digitsVal, isDigitCh, isPySpace]
    norm_num
  · simp +decide [parse_mem_string, parseMemCore, pyFloat, parseUnsigned, strip,
      lower, containsSub, removeAll, removeAllAux, digitsVal, isDigitCh, isPySpace]
    norm_num
  · simp +decide [parse_mem_string, parseMemCore, pyFloat, parseUnsigned, strip,
      lower, containsSub, removeAll, removeAllAux, digitsVal, isDigitCh, isPySpace]
  · simp +decide [parse_mem_string, parseMemCore, pyFloat, parseUnsigned, strip,
      lower, containsSub, removeAll, removeAllAux, digitsVal, isDigitCh, isPySpace]

/-- Witness for C4: the universal part applied at the concrete input
`"2KiB"`. -/
theorem claim_C4_witness :
    parse_mem_string ("2".toList ++ "KiB".toList) = 2 / 1024 := by
  refine (claim_C4_parse_mem_string.1 "2".toList "KiB".toList 2 (by decide) ?_).2.1 (by decide)
  simp +decide [pyFloat, parseUnsigned, strip, digitsVal, isDigitCh, isPySpace]
  norm_num

/-! ### Power model claims -/

/-- Claim C3: the power computation equals the declared linear model, and on
the worked example — `avg_cpu_percent = 50`, `allocated_cores = 0.5` (the
value of `ALLOCATED_CPU_CORES`), `cpu_watts_per_core = 2.0`,
`avg_mem_mib = 512`, `ram_watts_per_gb = 3.0`, `baseline_watts = 5.0`,
`duration_seconds = 10` — it yields `avg_cpu_power_w = 0.5`,
`avg_ram_power_w = 1.5`, `avg_power_w = 7.0` and
`energy_kwh = 7/360000 ≈ 1.9444e-5`. -/
theorem claim_C3_power_worked_example :
    ALLOCATED_CPU_CORES = 1 / 2 ∧
    avg_cpu_power_watt 50 ALLOCATED_CPU_CORES 2 = 0.5 ∧
    avg_ram_power_watt 512 3 = 1.5 ∧
    total_avg_power_watt 0.5 1.5 5 = 7 ∧
    energy_kwh 7 10 = 7 / 360000 ∧
    |energy_kwh 7 10 - 1.9444e-5| < 1e-9 := by
  refine ⟨?_, ?_, ?_, ?_, ?_, ?_⟩
  · norm_num [ALLOCATED_CPU_CORES, CPU_QUOTA, CPU_PERIOD]
  · norm_num [avg_cpu_power_watt, ALLOCATED_CPU_CORES, CPU_QUOTA, CPU_PERIOD]
  · norm_num [avg_ram_power_watt]
  · norm_num [total_avg_power_watt]
  · norm_num [energy_kwh]
  · rw [show energy_kwh 7 10 - 1.9444e-5 = 1 / 2250000000 by norm_num [energy_kwh]]
    rw [abs_of_pos (by norm_num)]
    norm_num

/-- Claim C9: for all non-negative coefficients, cores, averages and
duration, the energy is non-negative and monotonically non-decreasing in
the CPU average, the memory average and the duration independently, and
with zero averages it is exactly the baseline-derived energy.  (`energyOf`
is a total function on ℚ, the embedded counterpart of "never raises".) -/
theorem claim_C9_energy_monotone :
    ∀ cores wc wr base cpu mem dur cpu2 mem2 dur2 : ℚ,
    0 ≤ cores → 0 ≤ wc → 0 ≤ wr → 0 ≤ base → 0 ≤ cpu → 0 ≤ mem → 0 ≤ dur →
    cpu ≤ cpu2 → mem ≤ mem2 → dur ≤ dur2 →
    0 ≤ energyOf cores wc wr base cpu mem dur ∧
    energyOf cores wc wr base cpu mem dur ≤ energyOf cores wc wr base cpu2 mem dur ∧
    energyOf cores wc wr base cpu mem dur ≤ energyOf cores wc wr base cpu mem2 dur ∧
    energyOf cores wc wr base cpu mem dur ≤ energyOf cores wc wr base cpu mem dur2 ∧
    energyOf cores wc wr base 0 0 dur = base / 1000 * (dur / 3600) := by
  intro cores wc wr base cpu mem dur cpu2 mem2 dur2 h1 h2 h3 h4 h5 h6 h7 hc hm hd
  unfold energyOf energy_kwh total_avg_power_watt avg_cpu_power_watt avg_ram_power_watt
  refine ⟨by positivity, by gcongr, by gcongr, by gcongr, by ring⟩

/-- Witness for C9 at a concrete instance. -/
theorem claim_C9_witness :
    0 ≤ energyOf (1/2) 2 3 5 10 20 30 ∧
    energyOf (1/2) 2 3 5 10 20 30 ≤ energyOf (1/2) 2 3 5 40 20 30 ∧
    energyOf (1/2) 2 3 5 10 20 30 ≤ energyOf (1/2) 2 3 5 10 50 30 ∧
    energyOf (1/2) 2 3 5 10 20 30 ≤ energyOf (1/2) 2 3 5 10 20 60 ∧
    energyOf (1/2) 2 3 5 0 0 30 = 5 / 1000 * (30 / 3600) :=
  claim_C9_energy_monotone (1/2) 2 3 5 10 20 30 40 50 60 (by norm_num) (by norm_num)
    (by norm_num) (by norm_num) (by norm_num) (by norm_num) (by norm_num)
    (by norm_num) (by norm_num) (by norm_num)

/-! ### Rounding lemmas -/

theorem floor_le_rndHalfEven (x : ℚ) : ⌊x⌋ ≤ rndHalfEven x := by
  unfold rndHalfEven
  split_ifs <;> omega

theorem rndHalfEven_le_floor_add_one (x : ℚ) : rndHalfEven x ≤ ⌊x⌋ + 1 := by
  unfold rndHalfEven
  split_ifs <;> omega

theorem rndHalfEven_mono {x y : ℚ} (h : x ≤ y) : rndHalfEven x ≤ rndHalfEven y := by
  rcases lt_or_eq_of_le (Int.floor_le_floor h) with hf | hf
  · calc rndHalfEven x ≤ ⌊x⌋ + 1 := rndHalfEven_le_floor_add_one x
      _ ≤ ⌊y⌋ := by omega
      _ ≤ rndHalfEven y := floor_le_rndHalfEven y
  · unfold rndHalfEven
    rw [← hf]
    split_ifs <;> first | omega | linarith

theorem round2_mono {x y : ℚ} (h : x ≤ y) : round2 x ≤ round2 y := by
  unfold round2
  have h1 := rndHalfEven_mono (show x * 100 ≤ y * 100 by linarith)
  have h2 : ((rndHalfEven (x * 100) : ℚ)) ≤ ((rndHalfEven (y * 100) : ℚ)) := by
    exact_mod_cast h1
  linarith

theorem round2_zero : round2 0 = 0 := by
  norm_num [round2, rndHalfEven]

theorem round2_nonneg {x : ℚ} (h : 0 ≤ x) : 0 ≤ round2 x := by
  have := round2_mono h
  rwa [round2_zero] at this

/-! ### Stats aggregation lemmas -/

/-- One loop iteration preserves the peak/total invariant: the peak is
non-negative and bounds `total_mem / count` from above. -/
theorem statsStep_inv {acc : StatsAcc} (st : StatSample)
    (h1 : 0 ≤ acc.peak_mem_mib_calc)
    (h2 : acc.total_mem_mib ≤ acc.peak_mem_mib_calc * acc.count) :
    0 ≤ (statsStep acc st).peak_mem_mib_calc ∧
    (statsStep acc st).total_mem_mib ≤
      (statsStep acc st).peak_mem_mib_calc * (statsStep acc st).count := by
  unfold statsStep
  cases hc : st.cpu_perc with
  | none => exact ⟨h1, h2⟩
  | some c =>
      have hcnt : (0 : ℚ) ≤ acc.count := Nat.cast_nonneg _
      cases c <;> cases hm : st.mem_usage_mib <;>
        simp only [] <;> push_cast <;> constructor <;>
        first
        | (split_ifs <;> nlinarith)
        | nlinarith

theorem statsFold_inv (l : List StatSample) :
    0 ≤ (statsFold l).peak_mem_mib_calc ∧
    (statsFold l).total_mem_mib ≤
      (statsFold l).peak_mem_mib_calc * (statsFold l).count := by
  suffices h : ∀ acc : StatsAcc, 0 ≤ acc.peak_mem_mib_calc →
      acc.total_mem_mib ≤ acc.peak_mem_mib_calc * acc.count →
      0 ≤ (l.foldl statsStep acc).peak_mem_mib_calc ∧
      (l.foldl statsStep acc).total_mem_mib ≤
        (l.foldl statsStep acc).peak_mem_mib_calc * (l.foldl statsStep acc).count by
    exact h ⟨0, 0, 0, 0⟩ le_rfl (by norm_num)
  induction l with
  | nil => exact fun acc ha hb => ⟨ha, hb⟩
  | cons st rest ih =>
      intro acc ha hb
      exact ih (statsStep acc st) (statsStep_inv st ha hb).1 (statsStep_inv st ha hb).2

/-- Claim C10: in every result marked `success = true`, the reported
`peak_mem_mib` is non-negative and at least as large as the reported
`avg_mem_mib` — the two-decimal rounding applied to both preserves the
ordering of the exact peak and average. -/
theorem claim_C10_peak_ge_avg
    (r0 : RunResults) (samples : List StatSample) (dur : ℚ)
    (pa : PowerAssumptions) (h0 : r0.success = false)
    (hs : (processStats r0 samples dur pa).success = true) :
    0 ≤ (processStats r0 samples dur pa).peak_mem_mib ∧
    (processStats r0 samples dur pa).avg_mem_mib ≤
      (processStats r0 samples dur pa).peak_mem_mib := by
  simp only [processStats] at hs ⊢
  split_ifs at hs ⊢ with h1 h2
  · obtain ⟨hp, ht⟩ := statsFold_inv samples
    have hcnt : (0 : ℚ) < (statsFold samples).count := by exact_mod_cast h2
    have havg : (statsFold samples).total_mem_mib / (statsFold samples).count ≤
        (statsFold samples).peak_mem_mib_calc := by
      rw [div_le_iff₀ hcnt]
      exact ht
    exact ⟨round2_nonneg hp, round2_mono havg⟩
  · simp only [h0] at hs
    exact absurd hs (by simp)
  · simp only [h0] at hs
    exact absurd hs (by simp)
  · simp only [h0] at hs
    exact absurd hs (by simp)

/-- Witness for C10: a one-sample run that succeeds. -/
theorem claim_C10_witness :
    0 ≤ (processStats initResults (okSample :: []) 1 pa0).peak_mem_mib ∧
    (processStats initResults (okSample :: []) 1 pa0).avg_mem_mib ≤
      (processStats initResults (okSample :: []) 1 pa0).peak_mem_mib := by
  refine claim_C10_peak_ge_avg initResults (okSample :: []) 1 pa0 rfl ?_
  norm_num [processStats, statsFold, statsStep, okSample, initResults]

/-! ### Stats outcome messages (claim C6) -/

/-- Counterexample for C6 as stated: a non-empty sample buffer in which zero
entries parse successfully, processed with a zero run duration, yields the
duration message, not the "stats collected but unparsable" message — the
duration check precedes the parse-count check. -/
theorem claim_C6_counterexample :
    (processStats initResults (badSample :: []) 0 pa0).success = false ∧
    (processStats initResults (badSample :: []) 0 pa0).error =
      some "Run duration was zero or negative, cannot calculate energy." ∧
    ¬ (processStats initResults (badSample :: []) 0 pa0).error =
      some "Stats collected but count is zero or parsing failed." := by
  refine ⟨?_, ?_, ?_⟩ <;>
    norm_num [processStats, initResults, badSample, pa0] <;> decide

/-- Claim C6 as amended: an empty buffer yields the "no statistics" message;
a non-empty buffer with a *positive* duration whose entries all fail to
parse yields the "stats collected but unparsable" message; a non-empty
buffer with a non-positive duration yields the duration message; all three
messages are pairwise distinct, and `success` stays false in each case. -/
theorem claim_C6_amended
    (r0 : RunResults) (samples : List StatSample) (dur : ℚ)
    (pa : PowerAssumptions) (h0 : r0.success = false) :
    ((samples = [] →
        (processStats r0 samples dur pa).success = false ∧
        (processStats r0 samples dur pa).error =
          some "No statistics were collected.") ∧
      (samples ≠ [] → dur > 0 → (statsFold samples).count = 0 →
        (processStats r0 samples dur pa).success = false ∧
        (processStats r0 samples dur pa).error =
          some "Stats collected but count is zero or parsing failed.") ∧
      (samples ≠ [] → ¬ dur > 0 →
        (processStats r0 samples dur pa).success = false ∧
        (processStats r0 samples dur pa).error =
          some "Run duration was zero or negative, cannot calculate energy.")) ∧
    ("No statistics were collected." ≠
        "Stats collected but count is zero or parsing failed." ∧
      "No statistics were collected." ≠
        "Run duration was zero or negative, cannot calculate energy." ∧
      "Stats collected but count is zero or parsing failed." ≠
        "Run duration was zero or negative, cannot calculate energy.") := by
  refine ⟨⟨?_, ?_, ?_⟩, by decide, by decide, by decide⟩
  · intro he
    subst he
    simp [processStats, h0]
  · intro hne hdur hcnt
    simp only [processStats]
    rw [if_pos ⟨hne, hdur⟩, if_neg (by omega)]
    simp [h0]
  · intro hne hdur
    simp only [processStats]
    rw [if_neg (by tauto), if_neg hne]
    simp [h0]

/-- Witness for C6: one unparsable sample with a positive duration produces
the "unparsable" outcome. -/
theorem claim_C6_witness :
    (processStats initResults (badSample :: []) 1 pa0).success = false ∧
    (processStats initResults (badSample :: []) 1 pa0).error =
      some "Stats collected but count is zero or parsing failed." :=
  (claim_C6_amended initResults (badSample :: []) 1 pa0 rfl).1.2.1
    (by simp) (by norm_num) (by rfl)

/-! ### Cleanup lemmas -/

theorem recordCleanupErr_cases (r : RunResults) (m : String) :
    recordCleanupErr r m = r ∨
    (r.error = none ∧
      recordCleanupErr r m =
        { r with error := some ("Error during container cleanup: " ++ m) }) := by
  unfold recordCleanupErr
  split_ifs with h
  · exact Or.inr ⟨h, rfl⟩
  · exact Or.inl rfl

/-- When the engine performs the cleanup calls without error, no container
remains listed, whatever happened before. -/
theorem finallyCleanup_listed {env : RunEnv}
    (h1 : env.cleanup_reload = .ok) (h2 : env.cleanup_stop = .ok)
    (h3 : env.cleanup_remove = .ok) (b : Bool) (r : RunResults) (t : RunTrace) :
    (finallyCleanup env b r t).2.container_listed = false := by
  unfold finallyCleanup removePhase
  cases b
  · rfl
  · rw [h1, h2, h3]
    split_ifs <;> rfl

/-- The cleanup block never touches the fields of the results dictionary
other than (possibly) the error slot, and it leaves the error slot alone
whenever it is already occupied. -/
theorem finallyCleanup_fst_cases (env : RunEnv) (b : Bool) (r : RunResults)
    (t : RunTrace) :
    (finallyCleanup env b r t).1 = r ∨
    (r.error = none ∧ ∃ m, (finallyCleanup env b r t).1 = { r with error := some m }) := by
  have hrp : ∀ t' : RunTrace, (removePhase env r t').1 = r ∨
      (r.error = none ∧ ∃ m, (removePhase env r t').1 = { r with error := some m }) := by
    intro t'
    unfold removePhase
    cases env.cleanup_remove with
    | ok => exact Or.inl rfl
    | notFound => exact Or.inl rfl
    | failed m =>
        rcases recordCleanupErr_cases r m with h | ⟨he, h⟩
        · exact Or.inl h
        · exact Or.inr ⟨he, _, h⟩
  unfold finallyCleanup
  cases b
  · exact Or.inl rfl
  · rw [if_pos rfl]
    dsimp only
    split
    · exact Or.inl rfl
    · rcases recordCleanupErr_cases r _ with h | ⟨he, h⟩
      · exact Or.inl h
      · exact Or.inr ⟨he, _, h⟩
    · split_ifs with hst
      · split
        · exact Or.inl rfl
        · rcases recordCleanupErr_cases r _ with h | ⟨he, h⟩
          · exact Or.inl h
          · exact Or.inr ⟨he, _, h⟩
        · exact hrp _
      · exact hrp _

/-- The cleanup block does not modify the trace fields recorded before it
(name used, wait timeout, stop attempt). -/
theorem finallyCleanup_snd_fields (env : RunEnv) (b : Bool) (r : RunResults)
    (t : RunTrace) :
    (finallyCleanup env b r t).2.container_name_used = t.container_name_used ∧
    (finallyCleanup env b r t).2.wait_timeout_used = t.wait_timeout_used ∧
    (finallyCleanup env b r t).2.stop_after_wait_attempted = t.stop_after_wait_attempted := by
  have hrp : ∀ t' : RunTrace,
      (removePhase env r t').2.container_name_used = t'.container_name_used ∧
      (removePhase env r t').2.wait_timeout_used = t'.wait_timeout_used ∧
      (removePhase env r t').2.stop_after_wait_attempted = t'.stop_after_wait_attempted := by
    intro t'
    unfold removePhase
    cases env.cleanup_remove <;> exact ⟨rfl, rfl, rfl⟩
  unfold finallyCleanup
  cases b
  · exact ⟨rfl, rfl, rfl⟩
  · rw [if_pos rfl]
    dsimp only
    split
    · exact ⟨rfl, rfl, rfl⟩
    · exact ⟨rfl, rfl, rfl⟩
    · split_ifs with hst
      · split
        · exact ⟨rfl, rfl, rfl⟩
        · exact ⟨rfl, rfl, rfl⟩
        · exact hrp _
      · exact hrp _

/-- Claim C1: after every invocation of `run` — early configuration
failure, success, timeout, or an exception raised during any phase — the
stop-if-running-then-remove cleanup block is the (unconditionally executed)
last step, so whenever the engine carries out those cleanup calls without
error, no container bearing this execution's identifier remains listed
afterwards. -/
theorem claim_C1_cleanup_invariant (env : RunEnv)
    (h1 : env.cleanup_reload = .ok) (h2 : env.cleanup_stop = .ok)
    (h3 : env.cleanup_remove = .ok) :
    (run env).2.container_listed = false := by
  unfold run runTry
  split
  · rfl
  · dsimp only
    repeat'
      first
      | rfl
      | exact finallyCleanup_listed h1 h2 h3 _ _ _
      | split

/-- Witness for C1: the timed-out run leaves no container behind. -/
theorem claim_C1_witness : (run envWaitFail).2.container_listed = false :=
  claim_C1_cleanup_invariant envWaitFail rfl rfl rfl

/-- On the path where every phase up to the wait call is reached, `run`
is the cleanup applied to the stats-processed results with the recorded
container name, wait timeout and stop attempt. -/
theorem run_normal (env : RunEnv) (cfg : Config)
    (hcfg : env.load_config = .ok cfg) (hconv : env.conv_ok = true)
    (hdir : env.dir_exists = true) (hcon : env.connect = .ok ())
    (himg : (if env.image_present then Except.ok () else env.build) = Except.ok ())
    (hcr : env.create_ok = true) (hab : env.abort_after_start = none) :
    run env =
      finallyCleanup env true
        (processStats
          { initResults with
            power_assumptions := some cfg.power_assumptions
            runtime_seconds := round2 env.run_duration
            exit_code := (waitPhase env).1
            logs := some (logsText env) }
          env.samples env.run_duration cfg.power_assumptions)
        { initTrace with
          container_name_used := some container_name
          wait_timeout_used := some container_wait_timeout
          stop_after_wait_attempted := (waitPhase env).2 } := by
  unfold run runTry
  rw [hcfg]
  dsimp only
  rw [hconv, hdir, hcon, himg, hcr, hab]
  rfl

/-- The stats-processing phase never modifies the exit code, the logs or
the echoed power assumptions, and always records the sample count. -/
theorem processStats_fields (r : RunResults) (samples : List StatSample)
    (dur : ℚ) (pa : PowerAssumptions) :
    (processStats r samples dur pa).exit_code = r.exit_code ∧
    (processStats r samples dur pa).logs = r.logs ∧
    (processStats r samples dur pa).samples_collected = samples.length ∧
    (processStats r samples dur pa).power_assumptions = r.power_assumptions := by
  unfold processStats
  dsimp only
  split_ifs <;> exact ⟨rfl, rfl, rfl, rfl⟩

/-- Claim C5: whenever the wait on the sandbox fails — timeout or
engine-level error, the two being interchangeable — the reported exit code
is the sentinel `-99`, the orchestrator re-checks the status and attempts
the best-effort stop exactly when the reload succeeded and the container is
still running (the stop's own failure is swallowed: it is not even
observable in the model), and execution still proceeds to log retrieval and
stats collection. -/
theorem claim_C5_wait_failure (env : RunEnv) (cfg : Config) (we : WaitErr)
    (hcfg : env.load_config = .ok cfg) (hconv : env.conv_ok = true)
    (hdir : env.dir_exists = true) (hcon : env.connect = .ok ())
    (himg : (if env.image_present then Except.ok () else env.build) = Except.ok ())
    (hcr : env.create_ok = true) (hab : env.abort_after_start = none)
    (hw : env.wait = .error we) :
    (run env).1.exit_code = -99 ∧
    (run env).2.stop_after_wait_attempted =
      (env.wait_reload_ok && (env.status_after_wait = "running")) ∧
    (run env).1.samples_collected = env.samples.length ∧
    (run env).1.logs = some (logsText env) ∧
    run { env with wait := .error .timeout } =
      run { env with wait := .error .apiError } := by
  have hwp : waitPhase env =
      (-99, env.wait_reload_ok && (env.status_after_wait = "running")) := by
    unfold waitPhase
    rw [hw]
  rw [run_normal env cfg hcfg hconv hdir hcon himg hcr hab]
  set R0 : RunResults :=
    { initResults with
      power_assumptions := some cfg.power_assumptions
      runtime_seconds := round2 env.run_duration
      exit_code := (waitPhase env).1
      logs := some (logsText env) } with hR0
  set R : RunResults :=
    processStats R0 env.samples env.run_duration cfg.power_assumptions with hR
  set T : RunTrace :=
    { initTrace with
      container_name_used := some container_name
      wait_timeout_used := some container_wait_timeout
      stop_after_wait_attempted := (waitPhase env).2 } with hT
  obtain ⟨hps1, hps2, hps3, hps4⟩ :=
    processStats_fields R0 env.samples env.run_duration cfg.power_assumptions
  have hRx : R.exit_code = -99 := by
    rw [hR, hps1, hR0]
    simp [hwp]
  have hRl : R.logs = some (logsText env) := by
    rw [hR, hps2, hR0]
  have hRs : R.samples_collected = env.samples.length := by
    rw [hR, hps3]
  obtain ⟨ht1, ht2, ht3⟩ := finallyCleanup_snd_fields env true R T
  refine ⟨?_, ?_, ?_, ?_, rfl⟩
  · rcases finallyCleanup_fst_cases env true R T with hr | ⟨he, m, hr⟩ <;>
      rw [hr] <;> simp [hRx]
  · rw [ht3, hT]
    simp [hwp]
  · rcases finallyCleanup_fst_cases env true R T with hr | ⟨he, m, hr⟩ <;>
      rw [hr] <;> simp [hRs]
  · rcases finallyCleanup_fst_cases env true R T with hr | ⟨he, m, hr⟩ <;>
      rw [hr] <;> simp [hRl]

/-- Witness for C5: the concrete timed-out environment. -/
theorem claim_C5_witness :
    (run envWaitFail).1.exit_code = -99 ∧
    (run envWaitFail).2.stop_after_wait_attempted =
      (envWaitFail.wait_reload_ok && (envWaitFail.status_after_wait = "running")) ∧
    (run envWaitFail).1.samples_collected = envWaitFail.samples.length ∧
    (run envWaitFail).1.logs = some (logsText envWaitFail) ∧
    run { envWaitFail with wait := .error .timeout } =
      run { envWaitFail with wait := .error .apiError } :=
  claim_C5_wait_failure envWaitFail cfg0 .timeout rfl rfl rfl rfl rfl rfl rfl rfl

/-- Extract the phase outcomes from a run that starts a container. -/
theorem reachesCreate_elim {env : RunEnv} (h : reachesCreate env = true) :
    ∃ cfg, env.load_config = .ok cfg ∧ env.conv_ok = true ∧ env.dir_exists = true ∧
      env.connect = .ok () ∧
      (if env.image_present then Except.ok () else env.build) = Except.ok () ∧
      env.create_ok = true := by
  unfold reachesCreate at h
  cases hc : env.load_config with
  | error e =>
      rw [hc] at h
      simp at h
  | ok cfg =>
      rw [hc] at h
      dsimp only at h
      simp only [Bool.and_eq_true] at h
      obtain ⟨⟨hconv, hdir⟩, hrest⟩ := h
      cases hcon : env.connect with
      | error e =>
          rw [hcon] at hrest
          simp at hrest
      | ok u =>
          cases u
          rw [hcon] at hrest
          dsimp only at hrest
          cases himg : (if env.image_present then Except.ok () else env.build) with
          | error e =>
              rw [himg] at hrest
              simp at hrest
          | ok u2 =>
              cases u2
              rw [himg] at hrest
              exact ⟨cfg, rfl, hconv, hdir, rfl, rfl, hrest⟩

/-- Any run that starts a container records the constant container name. -/
theorem run_container_name_const (env : RunEnv) (cfg : Config)
    (hcfg : env.load_config = .ok cfg) (hconv : env.conv_ok = true)
    (hdir : env.dir_exists = true) (hcon : env.connect = .ok ())
    (himg : (if env.image_present then Except.ok () else env.build) = Except.ok ())
    (hcr : env.create_ok = true) :
    (run env).2.container_name_used = some container_name := by
  unfold run runTry
  rw [hcfg]
  dsimp only
  rw [hconv, hdir, hcon, himg, hcr]
  cases hab : env.abort_after_start with
  | some m => exact ((finallyCleanup_snd_fields env true _ _).1).trans rfl
  | none => exact ((finallyCleanup_snd_fields env true _ _).1).trans rfl

/-- Claim C7 (violated by the code): the code names the sandbox container
with the constant string "test" for every invocation — `CONTAINER_NAME_PREFIX`
is declared but unused — so any two invocations that start a container share
the same container name instead of using distinct identifiers. -/
theorem claim_C7_container_name_shared (e1 e2 : RunEnv)
    (h1 : reachesCreate e1 = true) (h2 : reachesCreate e2 = true) :
    (run e1).2.container_name_used = some "test" ∧
    (run e2).2.container_name_used = some "test" ∧
    (run e1).2.container_name_used = (run e2).2.container_name_used := by
  obtain ⟨c1, a1, b1, d1, f1, g1, i1⟩ := reachesCreate_elim h1
  obtain ⟨c2, a2, b2, d2, f2, g2, i2⟩ := reachesCreate_elim h2
  have n1 := run_container_name_const e1 c1 a1 b1 d1 f1 g1 i1
  have n2 := run_container_name_const e2 c2 a2 b2 d2 f2 g2 i2
  exact ⟨n1, n2, n1.trans n2.symm⟩

/-- Witness for C7: two concrete distinct invocations both use "test". -/
theorem claim_C7_witness :
    (run envOk).2.container_name_used = some "test" ∧
    (run envWaitFail).2.container_name_used = some "test" ∧
    (run envOk).2.container_name_used = (run envWaitFail).2.container_name_used :=
  claim_C7_container_name_shared envOk envWaitFail rfl rfl

/-- Counterexample for C8 as stated: the timeout passed to the wait call is
the hardcoded constant 300 seconds — not a request-supplied value and not
60. -/
theorem claim_C8_counterexample :
    (run envOk).2.wait_timeout_used = some container_wait_timeout ∧
    container_wait_timeout = 300 ∧ ¬ container_wait_timeout = 60 := by
  refine ⟨?_, rfl, by decide⟩
  rw [run_normal envOk cfg0 rfl rfl rfl rfl rfl rfl rfl]
  exact ((finallyCleanup_snd_fields envOk true _ _).2.1).trans rfl

/-- Claim C8 as amended: the timeout bounding the wait on the sandbox is
the hardcoded integer constant 300 seconds (`container_wait_timeout`),
supplied by neither the request nor the configuration. -/
theorem claim_C8_amended (env : RunEnv) (cfg : Config)
    (hcfg : env.load_config = .ok cfg) (hconv : env.conv_ok = true)
    (hdir : env.dir_exists = true) (hcon : env.connect = .ok ())
    (himg : (if env.image_present then Except.ok () else env.build) = Except.ok ())
    (hcr : env.create_ok = true) (hab : env.abort_after_start = none) :
    (run env).2.wait_timeout_used = some container_wait_timeout ∧
    container_wait_timeout = 300 := by
  refine ⟨?_, rfl⟩
  rw [run_normal env cfg hcfg hconv hdir hcon himg hcr hab]
  exact ((finallyCleanup_snd_fields env true _ _).2.1).trans rfl

/-- Witness for C8's amended claim. -/
theorem claim_C8_witness :
    (run envOk).2.wait_timeout_used = some container_wait_timeout ∧
    container_wait_timeout = 300 :=
  claim_C8_amended envOk cfg0 rfl rfl rfl rfl rfl rfl rfl

/-- When no container was started, the cleanup block returns the results
dictionary untouched. -/
theorem finallyCleanup_not_created (env : RunEnv) (r : RunResults) (t : RunTrace) :
    (finallyCleanup env false r t).1 = r := rfl

/-- The default field values of a fatally failed results dictionary. -/
theorem fatal_fields (msg : String) (p : Option PowerAssumptions) :
    ({ initResults with error := some msg, power_assumptions := p } : RunResults).success = false ∧
    ({ initResults with error := some msg, power_assumptions := p } : RunResults).error ≠ none ∧
    ({ initResults with error := some msg, power_assumptions := p } : RunResults).exit_code = -1 ∧
    ({ initResults with error := some msg, power_assumptions := p } : RunResults).logs = none ∧
    ({ initResults with error := some msg, power_assumptions := p } : RunResults).runtime_seconds = 0 ∧
    ({ initResults with error := some msg, power_assumptions := p } : RunResults).samples_collected = 0 ∧
    ({ initResults with error := some msg, power_assumptions := p } : RunResults).avg_cpu_percent = 0 ∧
    ({ initResults with error := some msg, power_assumptions := p } : RunResults).avg_mem_mib = 0 ∧
    ({ initResults with error := some msg, power_assumptions := p } : RunResults).peak_mem_mib = 0 ∧
    ({ initResults with error := some msg, power_assumptions := p } : RunResults).avg_power_watt = 0 ∧
    ({ initResults with error := some msg, power_assumptions := p } : RunResults).energy_kwh = 0 :=
  ⟨rfl, by simp, rfl, rfl, rfl, rfl, rfl, rfl, rfl, rfl, rfl⟩

/-- Claim C2: for every environment, `run` is a total function into the
fully populated results record (its embedded counterpart of "never
propagates an exception"), and on every fatal outcome — configuration
error, config-value conversion error, missing code directory, connection
error, build error, a failed container start, or an unexpected exception
right after the start — the result has `success = false`, a non-empty error
message, and every derived field still at its zeroed/absent default. -/
theorem claim_C2_fatal_defaults (env : RunEnv) (h : fatalB env = true) :
    (run env).1.success = false ∧
    (run env).1.error ≠ none ∧
    (run env).1.exit_code = -1 ∧
    (run env).1.logs = none ∧
    (run env).1.runtime_seconds = 0 ∧
    (run env).1.samples_collected = 0 ∧
    (run env).1.avg_cpu_percent = 0 ∧
    (run env).1.avg_mem_mib = 0 ∧
    (run env).1.peak_mem_mib = 0 ∧
    (run env).1.avg_power_watt = 0 ∧
    (run env).1.energy_kwh = 0 := by
  unfold fatalB at h
  unfold run runTry
  cases hc : env.load_config with
  | error e => exact fatal_fields _ _
  | ok cfg =>
      rw [hc] at h
      dsimp only at h ⊢
      cases hcv : env.conv_ok with
      | false =>
          rw [if_pos rfl]
          exact fatal_fields _ _
      | true =>
          rw [hcv] at h
          rw [if_neg (by simp)]
          cases hdv : env.dir_exists with
          | false =>
              rw [if_pos rfl]
              exact fatal_fields _ _
          | true =>
              rw [hdv] at h
              rw [if_neg (by simp)]
              simp only [Bool.not_true, Bool.false_or] at h
              cases hcon : env.connect with
              | error e =>
                  rw [finallyCleanup_not_created]
                  exact fatal_fields _ _
              | ok u =>
                  cases u
                  rw [hcon] at h
                  dsimp only at h
                  cases himg : (if env.image_present then Except.ok () else env.build) with
                  | error e =>
                      rw [finallyCleanup_not_created]
                      exact fatal_fields _ _
                  | ok u2 =>
                      cases u2
                      rw [himg] at h
                      dsimp only at h
                      cases hcr : env.create_ok with
                      | false =>
                          rw [if_pos rfl, finallyCleanup_not_created]
                          exact fatal_fields _ _
                      | true =>
                          rw [hcr] at h
                          rw [if_neg (by simp)]
                          simp only [Bool.not_true, Bool.false_or] at h
                          cases hab : env.abort_after_start with
                          | none =>
                              rw [hab] at h
                              simp at h
                          | some m =>
                              rcases finallyCleanup_fst_cases env true
                                  { initResults with
                                    error := some
                                      ("An unexpected error occurred during run: " ++ m)
                                    power_assumptions := some cfg.power_assumptions }
                                  { initTrace with
                                    container_name_used := some container_name }
                                with hr | ⟨he, m2, hr⟩
                              · rw [hr]
                                exact fatal_fields _ _
                              · exact absurd he (by simp)

/-- Witness for C2: the missing-configuration environment. -/
theorem claim_C2_witness :
    (run envConfigErr).1.success = false ∧
    (run envConfigErr).1.error ≠ none ∧
    (run envConfigErr).1.exit_code = -1 ∧
    (run envConfigErr).1.logs = none ∧
    (run envConfigErr).1.runtime_seconds = 0 ∧
    (run envConfigErr).1.samples_collected = 0 ∧
    (run envConfigErr).1.avg_cpu_percent = 0 ∧
    (run envConfigErr).1.avg_mem_mib = 0 ∧
    (run envConfigErr).1.peak_mem_mib = 0 ∧
    (run envConfigErr).1.avg_power_watt = 0 ∧
    (run envConfigErr).1.energy_kwh = 0 :=
  claim_C2_fatal_defaults envConfigErr rfl

end EcoCode
